import Mathlib

/-!
Verification of the media-variant accessor and the authentication/session
entities of the rs_proc_qq repository (src/proc_qq/src/entities.rs),
as a shallow embedding in Lean.

Machine integers (u32) are modelled as Nat: the code only copies them, it
never does arithmetic on them, so no overflow reasoning is needed.
Byte vectors (Vec of u8) are modelled as List Nat.  A fallible Rust
Result is modelled as Except.
-/

/-- Image metadata as used by the accessors.  GroupImage comes from the
external ricq_core crate; the repository code only reads the fields
width, height, size, md5 and calls the deterministic method url(), so the
type is modelled as a record of exactly those attributes (url as a stored
attribute, since its computation lives in the external crate). -/
structure GroupImage where
  width : Nat
  height : Nat
  size : Nat
  md5 : List Nat
  url : String

/-- FriendImage from the external ricq_core crate, modelled like
GroupImage: the record of the attributes the repository code reads. -/
structure FriendImage where
  width : Nat
  height : Nat
  size : Nat
  md5 : List Nat
  url : String

/-- FlashImage from ricq_core: a flash image wraps either a friend image
or a group image (enum FlashImage with variants FriendImage and
GroupImage). -/
inductive FlashImage where
  | FriendImage (image : FriendImage)
  | GroupImage (image : GroupImage)

/-- enum ImageElement from entities.rs: a closed variant over plain group
images, plain friend images and flash images. -/
inductive ImageElement where
  | GroupImage (image : GroupImage)
  | FriendImage (image : FriendImage)
  | FlashImage (image : FlashImage)

/-- Alias for GroupImage, used in signatures where the identically named
ImageElement constructor shadows the image type. -/
abbrev GroupImageTy : Type := GroupImage

/-- Alias for FriendImage (see GroupImageTy). -/
abbrev FriendImageTy : Type := FriendImage

/-- Alias for FlashImage (see GroupImageTy). -/
abbrev FlashImageTy : Type := FlashImage

/-- Expansion of image_element_get!(width, u32) from entities.rs: dispatch
by variant, looking through the flash wrapper.  Totality of the Rust
accessor (no fallible path) is reflected by the Lean function returning
the plain attribute type. -/
def ImageElement.width : ImageElement → Nat
  | ImageElement.GroupImage image => image.width
  | ImageElement.FriendImage image => image.width
  | ImageElement.FlashImage image =>
    match image with
    | FlashImage.FriendImage image => image.width
    | FlashImage.GroupImage image => image.width

/-- Expansion of image_element_get!(height, u32) from entities.rs. -/
def ImageElement.height : ImageElement → Nat
  | ImageElement.GroupImage image => image.height
  | ImageElement.FriendImage image => image.height
  | ImageElement.FlashImage image =>
    match image with
    | FlashImage.FriendImage image => image.height
    | FlashImage.GroupImage image => image.height

/-- Expansion of image_element_get!(size, u32) from entities.rs. -/
def ImageElement.size : ImageElement → Nat
  | ImageElement.GroupImage image => image.size
  | ImageElement.FriendImage image => image.size
  | ImageElement.FlashImage image =>
    match image with
    | FlashImage.FriendImage image => image.size
    | FlashImage.GroupImage image => image.size

/-- ImageElement::url from entities.rs. -/
def ImageElement.url : ImageElement → String
  | ImageElement.GroupImage image => image.url
  | ImageElement.FriendImage image => image.url
  | ImageElement.FlashImage image =>
    match image with
    | FlashImage.FriendImage image => image.url
    | FlashImage.GroupImage image => image.url

/-- ImageElement::md5 from entities.rs (the clone is identity in the
model). -/
def ImageElement.md5 : ImageElement → List Nat
  | ImageElement.GroupImage image => image.md5
  | ImageElement.FriendImage image => image.md5
  | ImageElement.FlashImage image =>
    match image with
    | FlashImage.FriendImage image => image.md5
    | FlashImage.GroupImage image => image.md5

/-- ImageElement::is_flash from entities.rs. -/
def ImageElement.is_flash : ImageElement → Bool
  | ImageElement.FlashImage _ => true
  | _ => false

/-- ImageElement::case_flash from entities.rs: the borrowing narrowing
accessor; anyhow Error msg is modelled as Except.error with the message
string. -/
def ImageElement.case_flash : ImageElement → Except String FlashImageTy
  | ImageElement.FlashImage image => Except.ok image
  | _ => Except.error "mismatching"

/-- ImageElement::into_flash from entities.rs: the consuming narrowing
accessor (same dispatch as case_flash, mirrored separately as in the
source). -/
def ImageElement.into_flash : ImageElement → Except String FlashImageTy
  | ImageElement.FlashImage image => Except.ok image
  | _ => Except.error "mismatching"

/-- ImageElement::is_group from entities.rs: classification of a flash
element is that of the wrapped inner image. -/
def ImageElement.is_group : ImageElement → Bool
  | ImageElement.GroupImage _ => true
  | ImageElement.FriendImage _ => false
  | ImageElement.FlashImage image =>
    match image with
    | FlashImage.FriendImage _ => false
    | FlashImage.GroupImage _ => true

/-- ImageElement::case_group from entities.rs. -/
def ImageElement.case_group : ImageElement → Except String GroupImageTy
  | ImageElement.GroupImage image => Except.ok image
  | ImageElement.FriendImage _ => Except.error "mismatching"
  | ImageElement.FlashImage image =>
    match image with
    | FlashImage.FriendImage _ => Except.error "mismatching"
    | FlashImage.GroupImage image => Except.ok image

/-- ImageElement::into_group from entities.rs. -/
def ImageElement.into_group : ImageElement → Except String GroupImageTy
  | ImageElement.GroupImage image => Except.ok image
  | ImageElement.FriendImage _ => Except.error "mismatching"
  | ImageElement.FlashImage image =>
    match image with
    | FlashImage.FriendImage _ => Except.error "mismatching"
    | FlashImage.GroupImage image => Except.ok image

/-- ImageElement::is_friend from entities.rs. -/
def ImageElement.is_friend : ImageElement → Bool
  | ImageElement.GroupImage _ => false
  | ImageElement.FriendImage _ => true
  | ImageElement.FlashImage image =>
    match image with
    | FlashImage.FriendImage _ => true
    | FlashImage.GroupImage _ => false

/-- ImageElement::case_friend from entities.rs. -/
def ImageElement.case_friend : ImageElement → Except String FriendImageTy
  | ImageElement.GroupImage _ => Except.error "mismatching"
  | ImageElement.FriendImage image => Except.ok image
  | ImageElement.FlashImage image =>
    match image with
    | FlashImage.FriendImage image => Except.ok image
    | FlashImage.GroupImage _ => Except.error "mismatching"

/-- ImageElement::into_friend from entities.rs. -/
def ImageElement.into_friend : ImageElement → Except String FriendImageTy
  | ImageElement.GroupImage _ => Except.error "mismatching"
  | ImageElement.FriendImage image => Except.ok image
  | ImageElement.FlashImage image =>
    match image with
    | FlashImage.FriendImage image => Except.ok image
    | FlashImage.GroupImage _ => Except.error "mismatching"

/-! ## File-backed session store

FileSessionStore from entities.rs persists an opaque byte blob at a
caller-chosen path.  The file system is external state: it is modelled as
a map from paths to optional contents, and each underlying tokio file
operation that can fail carries an explicit error-injection flag (the
behaviour of the environment on that call).  A failing write or delete
leaves the file system unchanged (whole-file replace granularity, per the
observable contract of the code); a failing read returns an error without
changing state. -/

/-- The external file system: contents by path, none when the path does
not exist. -/
abbrev FS : Type := String → Option (List Nat)

/-- struct FileSessionStore from entities.rs: just the path. -/
structure FileSessionStore where
  path : String

/-- FileSessionStore::save_session from entities.rs:
tokio fs write of the whole blob at self.path, propagating a write error
(the question-mark operator); werr injects the environment outcome of the
underlying write. -/
def FileSessionStore.save_session (st : FileSessionStore) (werr : Bool)
    (data : List Nat) (fs : FS) : Except Unit Unit × FS :=
  if werr then (Except.error (), fs)
  else (Except.ok (), fun p => if p = st.path then some data else fs p)

/-- FileSessionStore::load_session from entities.rs: if the path exists,
read it (propagating a read error, injected by rerr), else return
Ok(None). -/
def FileSessionStore.load_session (st : FileSessionStore) (rerr : Bool)
    (fs : FS) : Except Unit (Option (List Nat)) :=
  match fs st.path with
  | some d => if rerr then Except.error () else Except.ok (some d)
  | none => Except.ok none

/-- FileSessionStore::remove_session from entities.rs: the result of the
underlying tokio remove is discarded (let _ = ...), so the method returns
Ok(()) unconditionally; derr injects the environment outcome of the
underlying deletion (on failure the file is left as it was). -/
def FileSessionStore.remove_session (st : FileSessionStore) (derr : Bool)
    (fs : FS) : Except Unit Unit × FS :=
  (Except.ok (),
   if derr then fs else fun p => if p = st.path then none else fs p)

/-! ## Authentication engine

The login engine itself (the client loop driving resume, strategy
execution and challenge resolution) is not part of the sources at hand;
only its configuration types are (enum Authentication, ShowQR,
DeviceLockVerification, the supplier traits).  The engine below is
therefore modelled from the spec, section 4.2.  Asynchronous suppliers
and resolvers are modelled as their delivered outcome (Except value); the
server side of the connection handle is modelled as a behaviour record,
and the calls the engine makes on the connection are collected as an
explicit trace. -/

/-- Modelled from the spec: a challenge request emitted mid-login by the
underlying connection (section 3), one of a QR challenge carrying the QR
image bytes, a slider captcha challenge, and a device-lock challenge. -/
inductive ChallengeRequest where
  | QRChallenge (qr : List Nat)
  | SliderChallenge
  | DeviceLockChallenge

/-- Modelled from the spec: the password form submitted with credentials,
either a UTF-8 string or a 16-byte digest (section 3). -/
inductive PasswordForm where
  | Plaintext (password : String)
  | Digest (password_md5 : List Nat)

/-- Modelled from the spec: the calls the engine can make on the external
connection handle (section 6). -/
inductive ConnCall where
  | attempt_resume (credential : List Nat)
  | login_qr
  | login_credentials (uin : Int) (password : PasswordForm)
  | submit_slider_ticket (ticket : String)
  | submit_sms_code (code : String)
  | confirm_device_lock_url

/-- Modelled from the spec: the behaviour of the external connection for
one attempt: whether a resume would succeed, which challenges a login
call raises (strictly sequential), and whether the server confirms once
all challenges are resolved. -/
structure Conn where
  resume_ok : Bool
  challenges : List ChallengeRequest
  confirm_ok : Bool

/-- enum DeviceLockVerification from entities.rs: resolve a device lock
by URL confirmation or by an SMS code supplier; the async supplier is
modelled as its delivered outcome. -/
inductive DeviceLockVerification where
  | Url
  | Sms (supplier : Except Unit String)

/-- trait CustomUinPassword from entities.rs: an async supplier of uin
and plaintext password, modelled as the delivered outcomes. -/
structure CustomUinPassword where
  input_uin : Except Unit Int
  input_password : Except Unit String

/-- trait CustomUinPasswordMd5 from entities.rs: an async supplier of uin
and hashed password, modelled as the delivered outcomes. -/
structure CustomUinPasswordMd5 where
  input_uin : Except Unit Int
  input_password_md5 : Except Unit (List Nat)

/-- enum Authentication from entities.rs: the closed set of login
strategies.  The CallBack variant holds the function wrapped by
CallBackWrapper: a decision callback from the live connection handle to a
new selection. -/
inductive Authentication where
  | QRCode
  | UinPassword (uin : Int) (password : String)
  | UinPasswordMd5 (uin : Int) (password_md5 : List Nat)
  | CustomUinPassword (supplier : CustomUinPassword)
  | CustomUinPasswordMd5 (supplier : CustomUinPasswordMd5)
  | CallBack (callback : Conn → Authentication)
  | Abandon

/-- Modelled from the spec: the terminal outcome of one engine invocation
(section 4.2): authenticated, failed, or deliberately abandoned. -/
inductive Outcome where
  | Authenticated
  | Failed
  | Abandoned

/-- Modelled from the spec: the challenge resolvers configured for the
attempt: a QR display strategy, a slider strategy producing a ticket, and
the device-lock strategy (sections 3 and 6). -/
structure Resolvers where
  show_qr : List Nat → Except Unit Unit
  show_slider : Except Unit String
  device_lock : DeviceLockVerification

/-- Modelled from the spec: the challenge loop (section 4.2, rule 6):
challenges are handled strictly in order, one at a time; a resolver
failure aborts the loop.  Returns whether every challenge was resolved
and the connection calls made while resolving. -/
def resolveChallenges (res : Resolvers) :
    List ChallengeRequest → Bool × List ConnCall
  | [] => (true, [])
  | ChallengeRequest.QRChallenge qr :: rest =>
    match res.show_qr qr with
    | Except.ok _ => resolveChallenges res rest
    | Except.error _ => (false, [])
  | ChallengeRequest.SliderChallenge :: rest =>
    match res.show_slider with
    | Except.ok ticket =>
      let r := resolveChallenges res rest
      (r.fst, ConnCall.submit_slider_ticket ticket :: r.snd)
    | Except.error _ => (false, [])
  | ChallengeRequest.DeviceLockChallenge :: rest =>
    match res.device_lock with
    | DeviceLockVerification.Url =>
      let r := resolveChallenges res rest
      (r.fst, ConnCall.confirm_device_lock_url :: r.snd)
    | DeviceLockVerification.Sms supplier =>
      match supplier with
      | Except.ok code =>
        let r := resolveChallenges res rest
        (r.fst, ConnCall.submit_sms_code code :: r.snd)
      | Except.error _ => (false, [])

/-- Modelled from the spec: submit one login call to the connection,
resolve the raised challenges in order, and report Authenticated when all
were resolved and the server confirms, else Failed (section 4.2, rules 6
to 8). -/
def loginWith (conn : Conn) (res : Resolvers) (call : ConnCall) :
    Outcome × List ConnCall :=
  let r := resolveChallenges res conn.challenges
  if r.fst && conn.confirm_ok then (Outcome.Authenticated, call :: r.snd)
  else (Outcome.Failed, call :: r.snd)

/-- Modelled from the spec: strategy execution (section 4.2).  Abandon is
terminal with no connection call (rule 4); credential strategies submit
one login call (rule 6); custom suppliers that fail to deliver abort with
no connection call (rule 7); a decision callback re-evaluates once with
the selection it returns, with the fuel bounding re-evaluation at one
level (rule 5 and the open question of section 9). -/
def strategyExec : Nat → Authentication → Conn → Resolvers →
    Outcome × List ConnCall
  | _, Authentication.Abandon, _, _ => (Outcome.Abandoned, [])
  | _, Authentication.QRCode, conn, res => loginWith conn res ConnCall.login_qr
  | _, Authentication.UinPassword uin password, conn, res =>
    loginWith conn res
      (ConnCall.login_credentials uin (PasswordForm.Plaintext password))
  | _, Authentication.UinPasswordMd5 uin digest, conn, res =>
    loginWith conn res
      (ConnCall.login_credentials uin (PasswordForm.Digest digest))
  | _, Authentication.CustomUinPassword supplier, conn, res =>
    match supplier.input_uin, supplier.input_password with
    | Except.ok uin, Except.ok password =>
      loginWith conn res
        (ConnCall.login_credentials uin (PasswordForm.Plaintext password))
    | _, _ => (Outcome.Failed, [])
  | _, Authentication.CustomUinPasswordMd5 supplier, conn, res =>
    match supplier.input_uin, supplier.input_password_md5 with
    | Except.ok uin, Except.ok digest =>
      loginWith conn res
        (ConnCall.login_credentials uin (PasswordForm.Digest digest))
    | _, _ => (Outcome.Failed, [])
  | Nat.succ fuel, Authentication.CallBack callback, conn, res =>
    strategyExec fuel (callback conn) conn res
  | 0, Authentication.CallBack _, _, _ => (Outcome.Failed, [])

/-- Modelled from the spec: one engine invocation (section 4.2).  An
Abandon selection short-circuits directly to Abandoned without contacting
the network (rule 4 and the testable property of section 8); otherwise
the engine attempts a resume when the store delivered a saved session
(rules 1 to 3) and falls through to strategy execution on resume failure
or absent session.  The result pairs the terminal outcome with the trace
of connection calls. -/
def runEngine (sel : Authentication) (saved : Option (List Nat))
    (conn : Conn) (res : Resolvers) : Outcome × List ConnCall :=
  match sel with
  | Authentication.Abandon => (Outcome.Abandoned, [])
  | s =>
    match saved with
    | some credential =>
      if conn.resume_ok then
        (Outcome.Authenticated, [ConnCall.attempt_resume credential])
      else
        let r := strategyExec 1 s conn res
        (r.fst, ConnCall.attempt_resume credential :: r.snd)
    | none => strategyExec 1 s conn res

/-! ## Theorems about the media-variant accessor -/

/-- Claim C1: for every ImageElement the accessors width, height, size,
url and md5 are total and return the underlying attribute of the image;
for the same underlying image, the flash-wrapped element and the plain
element agree on all five accessors. -/
theorem image_element_accessors_uniform (g : GroupImage) (f : FriendImage) :
    (ImageElement.GroupImage g).width = g.width ∧
    (ImageElement.GroupImage g).height = g.height ∧
    (ImageElement.GroupImage g).size = g.size ∧
    (ImageElement.GroupImage g).url = g.url ∧
    (ImageElement.GroupImage g).md5 = g.md5 ∧
    (ImageElement.FriendImage f).width = f.width ∧
    (ImageElement.FriendImage f).height = f.height ∧
    (ImageElement.FriendImage f).size = f.size ∧
    (ImageElement.FriendImage f).url = f.url ∧
    (ImageElement.FriendImage f).md5 = f.md5 ∧
    (ImageElement.FlashImage (FlashImage.GroupImage g)).width = g.width ∧
    (ImageElement.FlashImage (FlashImage.GroupImage g)).height = g.height ∧
    (ImageElement.FlashImage (FlashImage.GroupImage g)).size = g.size ∧
    (ImageElement.FlashImage (FlashImage.GroupImage g)).url = g.url ∧
    (ImageElement.FlashImage (FlashImage.GroupImage g)).md5 = g.md5 ∧
    (ImageElement.FlashImage (FlashImage.FriendImage f)).width = f.width ∧
    (ImageElement.FlashImage (FlashImage.FriendImage f)).height = f.height ∧
    (ImageElement.FlashImage (FlashImage.FriendImage f)).size = f.size ∧
    (ImageElement.FlashImage (FlashImage.FriendImage f)).url = f.url ∧
    (ImageElement.FlashImage (FlashImage.FriendImage f)).md5 = f.md5 ∧
    (ImageElement.FlashImage (FlashImage.GroupImage g)).width
      = (ImageElement.GroupImage g).width ∧
    (ImageElement.FlashImage (FlashImage.GroupImage g)).height
      = (ImageElement.GroupImage g).height ∧
    (ImageElement.FlashImage (FlashImage.GroupImage g)).size
      = (ImageElement.GroupImage g).size ∧
    (ImageElement.FlashImage (FlashImage.GroupImage g)).url
      = (ImageElement.GroupImage g).url ∧
    (ImageElement.FlashImage (FlashImage.GroupImage g)).md5
      = (ImageElement.GroupImage g).md5 ∧
    (ImageElement.FlashImage (FlashImage.FriendImage f)).width
      = (ImageElement.FriendImage f).width ∧
    (ImageElement.FlashImage (FlashImage.FriendImage f)).height
      = (ImageElement.FriendImage f).height ∧
    (ImageElement.FlashImage (FlashImage.FriendImage f)).size
      = (ImageElement.FriendImage f).size ∧
    (ImageElement.FlashImage (FlashImage.FriendImage f)).url
      = (ImageElement.FriendImage f).url ∧
    (ImageElement.FlashImage (FlashImage.FriendImage f)).md5
      = (ImageElement.FriendImage f).md5 :=
  ⟨rfl, rfl, rfl, rfl, rfl, rfl, rfl, rfl, rfl, rfl,
   rfl, rfl, rfl, rfl, rfl, rfl, rfl, rfl, rfl, rfl,
   rfl, rfl, rfl, rfl, rfl, rfl, rfl, rfl, rfl, rfl⟩

/-- Claim C2: if save_session(x) succeeds then a subsequent load_session
(whose underlying read succeeds) returns Ok(Some(x)), regardless of any
content previously stored at the same path: the save is a whole-file
replace. -/
theorem file_session_save_then_load (st : FileSessionStore) (data : List Nat)
    (fs : FS) (werr : Bool)
    (h : (st.save_session werr data fs).fst = Except.ok ()) :
    st.load_session false (st.save_session werr data fs).snd
      = Except.ok (some data) := by
  cases werr with
  | true => simp [FileSessionStore.save_session] at h
  | false =>
    simp [FileSessionStore.save_session, FileSessionStore.load_session]

/-- Witness for C2 at a concrete store, blob and prior file system. -/
theorem file_session_save_then_load_witness :
    FileSessionStore.load_session ⟨"session.token"⟩ false
        (FileSessionStore.save_session ⟨"session.token"⟩ false [1, 2]
          (fun _ => some [9, 9])).snd
      = Except.ok (some [1, 2]) :=
  file_session_save_then_load ⟨"session.token"⟩ [1, 2]
    (fun _ => some [9, 9]) false rfl

/-- Claim C3 counterexample: when the underlying deletion errors while the
file is present, remove_session still returns Ok(()), but the following
load_session returns the surviving content, not Ok(None): the claim as
stated is false. -/
theorem file_session_remove_then_load_counterexample :
    (FileSessionStore.remove_session ⟨"session.token"⟩ true
        (fun _ => some [1])).fst = Except.ok () ∧
    ¬ (FileSessionStore.load_session ⟨"session.token"⟩ false
        (FileSessionStore.remove_session ⟨"session.token"⟩ true
          (fun _ => some [1])).snd
      = Except.ok none) := by
  constructor
  · rfl
  · intro h
    simp [FileSessionStore.remove_session, FileSessionStore.load_session] at h

/-- Claim C3 (amended): remove_session always returns Ok(()), even when
the underlying deletion errors or the file is already absent; a subsequent
load_session returns Ok(None) whenever the underlying deletion succeeded,
and also, for any deletion outcome, whenever the file was already
absent. -/
theorem file_session_remove_best_effort (st : FileSessionStore) (fs : FS)
    (derr : Bool) :
    (st.remove_session derr fs).fst = Except.ok () ∧
    (derr = false →
      st.load_session false (st.remove_session derr fs).snd
        = Except.ok none) ∧
    (fs st.path = none →
      st.load_session false (st.remove_session derr fs).snd
        = Except.ok none) := by
  refine ⟨rfl, ?_, ?_⟩
  · intro h
    subst h
    simp [FileSessionStore.remove_session, FileSessionStore.load_session]
  · intro h
    cases derr with
    | true =>
      simp [FileSessionStore.remove_session, FileSessionStore.load_session, h]
    | false =>
      simp [FileSessionStore.remove_session, FileSessionStore.load_session]

/-- Witness for the amended C3: one instantiation with a successful
deletion of a present file, one with a failing deletion of an absent
file; both end with load_session returning Ok(None). -/
theorem file_session_remove_best_effort_witness :
    FileSessionStore.load_session ⟨"session.token"⟩ false
        (FileSessionStore.remove_session ⟨"session.token"⟩ false
          (fun _ => some [3])).snd = Except.ok none ∧
    FileSessionStore.load_session ⟨"other.token"⟩ false
        (FileSessionStore.remove_session ⟨"other.token"⟩ true
          (fun _ => none)).snd = Except.ok none :=
  ⟨(file_session_remove_best_effort ⟨"session.token"⟩
      (fun _ => some [3]) false).2.1 rfl,
   (file_session_remove_best_effort ⟨"other.token"⟩
      (fun _ => none) true).2.2 rfl⟩

/-- Claim C4: load_session on a store whose path does not exist returns
Ok(None), never an error, whatever the read-error environment would have
been. -/
theorem file_session_load_absent (st : FileSessionStore) (fs : FS)
    (rerr : Bool) (h : fs st.path = none) :
    st.load_session rerr fs = Except.ok none := by
  simp [FileSessionStore.load_session, h]

/-- Witness for C4 on an empty file system. -/
theorem file_session_load_absent_witness :
    FileSessionStore.load_session ⟨"session.token"⟩ true (fun _ => none)
      = Except.ok none :=
  file_session_load_absent ⟨"session.token"⟩ (fun _ => none) true rfl

/-- Claim C5: case_group and into_group return the Mismatch error on a
friend-backed element and Ok with the source image on a group-backed
element; symmetrically for case_friend and into_friend. -/
theorem image_element_narrow_group_friend (g : GroupImage) (f : FriendImage) :
    ImageElement.case_group (ImageElement.FriendImage f)
      = Except.error "mismatching" ∧
    ImageElement.into_group (ImageElement.FriendImage f)
      = Except.error "mismatching" ∧
    ImageElement.case_group (ImageElement.GroupImage g) = Except.ok g ∧
    ImageElement.into_group (ImageElement.GroupImage g) = Except.ok g ∧
    ImageElement.case_friend (ImageElement.GroupImage g)
      = Except.error "mismatching" ∧
    ImageElement.into_friend (ImageElement.GroupImage g)
      = Except.error "mismatching" ∧
    ImageElement.case_friend (ImageElement.FriendImage f) = Except.ok f ∧
    ImageElement.into_friend (ImageElement.FriendImage f) = Except.ok f :=
  ⟨rfl, rfl, rfl, rfl, rfl, rfl, rfl, rfl⟩

/-- Claim C6: case_flash and into_flash return Ok with the inner flash
image exactly on the flash variant and the Mismatch error on both other
variants, and the total predicate is_flash is true exactly on the flash
variant. -/
theorem image_element_flash_narrowing (i : FlashImage) (g : GroupImage)
    (f : FriendImage) :
    ImageElement.is_flash (ImageElement.FlashImage i) = true ∧
    ImageElement.case_flash (ImageElement.FlashImage i) = Except.ok i ∧
    ImageElement.into_flash (ImageElement.FlashImage i) = Except.ok i ∧
    ImageElement.is_flash (ImageElement.GroupImage g) = false ∧
    ImageElement.case_flash (ImageElement.GroupImage g)
      = Except.error "mismatching" ∧
    ImageElement.into_flash (ImageElement.GroupImage g)
      = Except.error "mismatching" ∧
    ImageElement.is_flash (ImageElement.FriendImage f) = false ∧
    ImageElement.case_flash (ImageElement.FriendImage f)
      = Except.error "mismatching" ∧
    ImageElement.into_flash (ImageElement.FriendImage f)
      = Except.error "mismatching" :=
  ⟨rfl, rfl, rfl, rfl, rfl, rfl, rfl, rfl, rfl⟩

/-- Claim C9: is_group and is_friend return opposite booleans on every
element, and on flash-wrapped elements the classification is that of the
wrapped inner image. -/
theorem image_element_group_friend_partition (e : ImageElement)
    (g : GroupImage) (f : FriendImage) :
    ImageElement.is_group e = !(ImageElement.is_friend e) ∧
    ImageElement.is_group (ImageElement.FlashImage (FlashImage.GroupImage g))
      = true ∧
    ImageElement.is_friend (ImageElement.FlashImage (FlashImage.GroupImage g))
      = false ∧
    ImageElement.is_group (ImageElement.FlashImage (FlashImage.FriendImage f))
      = false ∧
    ImageElement.is_friend (ImageElement.FlashImage (FlashImage.FriendImage f))
      = true := by
  refine ⟨?_, rfl, rfl, rfl, rfl⟩
  cases e with
  | GroupImage g2 => rfl
  | FriendImage f2 => rfl
  | FlashImage i => cases i <;> rfl

/-- Claim C10: the group and friend narrowing accessors look through the
flash wrapper, so a flash element wrapping a group image narrows to that
group image (and mismatches as a friend), symmetrically for a wrapped
friend image, and such an element satisfies is_flash together with
is_group (respectively is_friend). -/
theorem image_element_flash_passthrough (g : GroupImage) (f : FriendImage) :
    ImageElement.case_group
        (ImageElement.FlashImage (FlashImage.GroupImage g)) = Except.ok g ∧
    ImageElement.into_group
        (ImageElement.FlashImage (FlashImage.GroupImage g)) = Except.ok g ∧
    ImageElement.case_friend
        (ImageElement.FlashImage (FlashImage.GroupImage g))
      = Except.error "mismatching" ∧
    ImageElement.into_friend
        (ImageElement.FlashImage (FlashImage.GroupImage g))
      = Except.error "mismatching" ∧
    ImageElement.case_friend
        (ImageElement.FlashImage (FlashImage.FriendImage f)) = Except.ok f ∧
    ImageElement.into_friend
        (ImageElement.FlashImage (FlashImage.FriendImage f)) = Except.ok f ∧
    ImageElement.case_group
        (ImageElement.FlashImage (FlashImage.FriendImage f))
      = Except.error "mismatching" ∧
    ImageElement.into_group
        (ImageElement.FlashImage (FlashImage.FriendImage f))
      = Except.error "mismatching" ∧
    ImageElement.is_flash
        (ImageElement.FlashImage (FlashImage.GroupImage g)) = true ∧
    ImageElement.is_group
        (ImageElement.FlashImage (FlashImage.GroupImage g)) = true ∧
    ImageElement.is_flash
        (ImageElement.FlashImage (FlashImage.FriendImage f)) = true ∧
    ImageElement.is_friend
        (ImageElement.FlashImage (FlashImage.FriendImage f)) = true :=
  ⟨rfl, rfl, rfl, rfl, rfl, rfl, rfl, rfl, rfl, rfl, rfl, rfl⟩

/-- Claim C7: for an Abandon selection the engine reaches the terminal
Abandoned outcome with an empty connection-call trace, whatever session
the store holds and whatever the connection and resolvers would do. -/
theorem engine_abandon_no_connection_calls (saved : Option (List Nat))
    (conn : Conn) (res : Resolvers) :
    runEngine Authentication.Abandon saved conn res = (Outcome.Abandoned, []) :=
  rfl
